import Mathlib

/-
Verification of the lazy postfix calculator in src/grupa6/zadanie7/ak385833/42.cc.

The embedding models side effects of user-supplied producers and combinators by
threading an explicit world state of type σ. A deferred computation (the class
Lazy of the source) is a function from a world to an integer result and a new
world; invoking it twice runs its effects twice, and not invoking it runs no
effects, matching the non-memoized std::function semantics of the source.

The member stack of LazyCalculator (line 32 of the source) is mutable state
that persists across calls to parse and calculate; it is passed explicitly,
paired with the world, and returned alongside each result, including on the
error paths, exactly where a thrown C++ exception would leave the member.
-/

namespace FunctionalCPP

/-- Errors of the calculator (42.cc lines 9 through 16), plus a marker for the
undefined behavior of calling top or pop on an empty std::stack: in
doOperation (lines 62 through 65) the source pops two operands with no depth
check, which on a stack of fewer than two elements is undefined behavior in
C++, not a defined exception. The constructor alreadyDefined models the
OperatorAlreadyDefined exception. -/
inductive Err where
  | syntaxError
  | unknownOperator
  | alreadyDefined
  | undefinedBehavior
deriving DecidableEq

/-- The class Lazy (42.cc lines 18 through 26): a deferred computation that,
when invoked, yields an Int while possibly performing side effects, modelled
as a world transition. Copying a Lazy copies the wrapped std::function, which
shares the captured state, so copies are literally the same function here. -/
def Lazy (σ : Type) : Type := σ → Int × σ

/-- The registered-entry state of a LazyCalculator (the four 128-entry member
tables of 42.cc lines 34 through 37). The tables are total maps over Char
guarded by the defined flags; a slot whose flag is false holds junk that the
code never calls, matching a default-constructed std::function. A combinator
receives the two operand thunks and runs now, producing an Int with effects. -/
structure Machine (σ : Type) where
  functions : Char → Lazy σ → Lazy σ → σ → Int × σ
  literals : Char → Lazy σ
  is_function_defined : Char → Bool
  is_literal_defined : Char → Bool

/-- doOperation (42.cc lines 57 through 71). The state is the member stack
(head is the top) paired with the world. The literal branch pushes the
producer as a thunk without calling it; the operator branch pops b then a and
pushes a thunk that, when invoked, applies the registered combinator to the
unevaluated operand thunks; popping with fewer than two elements on the stack
is the undefined behavior of std::stack, reported as Err.undefinedBehavior;
an unregistered token throws UnknownOperator. -/
def doOperation (m : Machine σ) (c : Char) (st : List (Lazy σ) × σ) :
    Except Err (List (Lazy σ) × σ) :=
  if m.is_literal_defined c then
    .ok (m.literals c :: st.1, st.2)
  else if m.is_function_defined c then
    match st.1 with
    | b :: a :: rest => .ok ((fun w => m.functions c a b w) :: rest, st.2)
    | _ => .error .undefinedBehavior
  else
    .error .unknownOperator

/-- The for_each loop of parse (42.cc lines 75 and 76): doOperation on each
character, left to right. A thrown exception aborts the loop at once; the
state returned with the error is the member stack and world at the throw
point, since the C++ exception leaves the member stack as it was. -/
def runTokens (m : Machine σ) : List Char → List (Lazy σ) × σ →
    Except Err Unit × (List (Lazy σ) × σ)
  | [], st => (.ok (), st)
  | c :: cs, st =>
    match doOperation m c st with
    | .ok st2 => runTokens m cs st2
    | .error e => (.error e, st)

/-- parse (42.cc lines 74 through 83): run all tokens, then require the stack
to hold exactly one element, else throw SyntaxError leaving the stack as is;
on success pop and return that single thunk unevaluated. -/
def parse (m : Machine σ) (s : List Char) (st : List (Lazy σ) × σ) :
    Except Err (Lazy σ) × (List (Lazy σ) × σ) :=
  match runTokens m s st with
  | (.error e, st2) => (.error e, st2)
  | (.ok _, (stack, w)) =>
    match stack with
    | [a] => (.ok a, ([], w))
    | _ => (.error .syntaxError, (stack, w))

/-- calculate (42.cc lines 85 through 87): parse(s)() — parse, then invoke
the returned thunk at the current world; a parse exception propagates. -/
def calculate (m : Machine σ) (s : List Char) (st : List (Lazy σ) × σ) :
    Except Err Int × (List (Lazy σ) × σ) :=
  match parse m s st with
  | (.ok a, (stack, w)) =>
    match a w with
    | (v, w2) => (.ok v, (stack, w2))
  | (.error e, st2) => (.error e, st2)

/-- define (42.cc lines 89 through 96): registering an operator throws
OperatorAlreadyDefined if the token is bound as operator or as literal,
otherwise stores the combinator and sets its flag. -/
def define (m : Machine σ) (c : Char) (fn : Lazy σ → Lazy σ → σ → Int × σ) :
    Except Err (Machine σ) :=
  if m.is_function_defined c || m.is_literal_defined c then
    .error .alreadyDefined
  else
    .ok { m with
      functions := fun x => if x = c then fn else m.functions x,
      is_function_defined := fun x => if x = c then true else m.is_function_defined x }

/-- define_literal (42.cc lines 102 through 108): registering a literal
throws OperatorAlreadyDefined only if the token is already bound as a
literal — the function table is not consulted — otherwise stores the
producer and sets its flag. -/
def define_literal (m : Machine σ) (c : Char) (fn : Lazy σ) :
    Except Err (Machine σ) :=
  if m.is_literal_defined c then
    .error .alreadyDefined
  else
    .ok { m with
      literals := fun x => if x = c then fn else m.literals x,
      is_literal_defined := fun x => if x = c then true else m.is_literal_defined x }

/-- A producer of a fixed integer with no side effects, as the built-in
literal lambdas of the constructor. -/
def pureL (n : Int) : Lazy σ := fun w => (n, w)

/-- The built-in addition combinator (42.cc line 51): invokes both operands
and adds. The source leaves the order of the two calls in a() + b()
unspecified; the model fixes left first, which no claim observes. -/
def addC : Lazy σ → Lazy σ → σ → Int × σ := fun a b w =>
  match a w with
  | (x, w1) =>
    match b w1 with
    | (y, w2) => (x + y, w2)

/-- The built-in subtraction combinator (42.cc line 52). -/
def subC : Lazy σ → Lazy σ → σ → Int × σ := fun a b w =>
  match a w with
  | (x, w1) =>
    match b w1 with
    | (y, w2) => (x - y, w2)

/-- The built-in multiplication combinator (42.cc line 53). -/
def mulC : Lazy σ → Lazy σ → σ → Int × σ := fun a b w =>
  match a w with
  | (x, w1) =>
    match b w1 with
    | (y, w2) => (x * y, w2)

/-- The built-in division combinator (42.cc line 54); Int.tdiv is the
truncating division of C++ int. -/
def divC : Lazy σ → Lazy σ → σ → Int × σ := fun a b w =>
  match a w with
  | (x, w1) =>
    match b w1 with
    | (y, w2) => (Int.tdiv x y, w2)

/-- The state of a freshly constructed LazyCalculator (42.cc lines 41
through 55): the constructor clears all flags, then registers the literals
0, 2, 4 and the operators + - * / through define_literal and define, all of
which succeed on the fresh tables and amount to exactly these table
contents. -/
def defaultCalc (σ : Type) : Machine σ where
  functions := fun c =>
    if c = '+' then addC
    else if c = '-' then subC
    else if c = '*' then mulC
    else if c = '/' then divC
    else fun _ _ w => (0, w)
  literals := fun c =>
    if c = '0' then pureL 0
    else if c = '2' then pureL 2
    else if c = '4' then pureL 4
    else pureL 0
  is_function_defined := fun c => c = '+' || c = '-' || c = '*' || c = '/'
  is_literal_defined := fun c => c = '0' || c = '2' || c = '4'

/-- Success of an Except value as a Boolean, to state that a registration
did not throw. -/
def isOk : Except Err α → Bool
  | .ok _ => true
  | .error _ => false

/-- A producer with an observable side effect: each run bumps a Nat counter
world, the model of the log-appending operands of the driver. -/
def tick : Lazy Nat := fun n => (Int.ofNat n, n + 1)

/-- Invoke a thunk k times in sequence, discarding the results, as the
repetition combinators of the driver do. -/
def invokeN : Nat → Lazy σ → σ → Int × σ
  | 0, _, w => (0, w)
  | Nat.succ k, t, w => invokeN k t (t w).2

/-- A calculator over a Nat counter world with one literal t bound to tick
and one operator K whose combinator never invokes its first operand and
invokes its second operand exactly k times. -/
def countCalc (k : Nat) : Machine Nat where
  functions := fun c =>
    if c = 'K' then fun _ b w => invokeN k b w else fun _ _ w => (0, w)
  literals := fun c => if c = 't' then tick else fun w => (0, w)
  is_function_defined := fun c => c = 'K'
  is_literal_defined := fun c => c = 't'

/-- The C8 reading of calculate, written from the words of the spec:
evaluate the text, and on success invoke the returned thunk now, at the
world evaluation reached; a failed evaluation propagates its error.
Compare with calculate, the direct translation of parse(s)(). -/
def spec_evaluate_then_invoke (m : Machine σ) (s : List Char)
    (st : List (Lazy σ) × σ) : Except Err Int × (List (Lazy σ) × σ) :=
  match (parse m s st).1 with
  | .ok a =>
    (.ok (a (parse m s st).2.2).1, ((parse m s st).2.1, (a (parse m s st).2.2).2))
  | .error e => (.error e, (parse m s st).2)

/-- The calculator state reached from the fresh calculator by registering
the operator token + also as a literal producing 7 — reachable because
define_literal consults only the literal table. Concrete input for the
dual binding claim. -/
def plusAsLiteral : Machine Unit :=
  { defaultCalc Unit with
    literals := fun x => if x = '+' then pureL 7 else (defaultCalc Unit).literals x,
    is_literal_defined := fun x =>
      if x = '+' then true else (defaultCalc Unit).is_literal_defined x }

/-- Helper: the operator branch of doOperation pops b (top) then a and pushes
the thunk that applies the registered combinator to the unevaluated operand
thunks. -/
theorem doOperation_op {σ : Type} (m : Machine σ) (c : Char) (a b : Lazy σ)
    (rest : List (Lazy σ)) (w : σ) (hl : m.is_literal_defined c = false)
    (hf : m.is_function_defined c = true) :
    doOperation m c (b :: a :: rest, w) =
      .ok ((fun w2 => m.functions c a b w2) :: rest, w) := by
  simp [doOperation, hl, hf]

/-- Helper: doOperation never changes the world component — no branch of
42.cc lines 57 through 71 calls a producer or a combinator. -/
theorem doOperation_world {σ : Type} (m : Machine σ) (c : Char)
    (st st2 : List (Lazy σ) × σ) (h : doOperation m c st = .ok st2) :
    st2.2 = st.2 := by
  unfold doOperation at h
  split at h
  · injection h with h2
    rw [← h2]
  · split at h
    · split at h
      · injection h with h2
        rw [← h2]
      · injection h
    · injection h

/-- Helper: the one-step equation of the token loop on a nonempty list. -/
theorem runTokens_cons {σ : Type} (m : Machine σ) (c : Char) (cs : List Char)
    (st : List (Lazy σ) × σ) :
    runTokens m (c :: cs) st =
      match doOperation m c st with
      | .ok st2 => runTokens m cs st2
      | .error e => (.error e, st) := rfl

/-- Helper: the token loop never changes the world component. -/
theorem runTokens_world {σ : Type} (m : Machine σ) (s : List Char) :
    ∀ st : List (Lazy σ) × σ, (runTokens m s st).2.2 = st.2 := by
  induction s with
  | nil => intro st; rfl
  | cons c cs ih =>
    intro st
    unfold runTokens
    cases hdo : doOperation m c st with
    | ok st2 => rw [ih st2, doOperation_world m c st st2 hdo]
    | error e => rfl

/-- Helper: when the token loop consumes a first part without an exception,
the loop over the concatenation continues with the second part from the
state the first part reached. -/
theorem runTokens_append_ok {σ : Type} (m : Machine σ) (s1 s2 : List Char) :
    ∀ st st2 : List (Lazy σ) × σ, runTokens m s1 st = (.ok (), st2) →
      runTokens m (s1 ++ s2) st = runTokens m s2 st2 := by
  induction s1 with
  | nil =>
    intro st st2 h
    injection h with h1 h2
    rw [List.nil_append, h2]
  | cons c cs ih =>
    intro st st2 h
    rw [List.cons_append, runTokens_cons]
    rw [runTokens_cons] at h
    cases hdo : doOperation m c st with
    | ok st3 =>
      rw [hdo] at h
      exact ih st3 st2 h
    | error e =>
      rw [hdo] at h
      simp at h

/-- C1: the claim states that an operator token scanned with fewer than two
elements on the stack makes evaluate fail with SyntaxError through an
explicit depth check performed before any pop. The source has no such
check: doOperation (42.cc lines 62 through 65) calls top and pop on the
std::stack regardless of its size, which on a stack of fewer than two
elements is undefined behavior, not SyntaxError. On the failing input 4+
the fresh calculator reaches the undefined pop; the driver of the program
itself (42.cc line 171) asserts SyntaxError on this very input, and the
design notes of the spec call the missing check a bug to fix, so this is a
bug in the code rather than in the claim. -/
theorem c1_operator_underflow_is_ub :
    (parse (defaultCalc Unit) (['4', '+']) ([], ())).1 = .error .undefinedBehavior ∧
    doOperation (defaultCalc Unit) '+' ([pureL 4], ()) = .error .undefinedBehavior ∧
    doOperation (defaultCalc Unit) '+' ([], ()) = .error .undefinedBehavior :=
  ⟨rfl, rfl, rfl⟩

/-- C2 counterexample: the token + is bound as an operator in the fresh
calculator, yet registering it again as a literal does not fail with
AlreadyDefined — it succeeds, because define_literal (42.cc line 103)
consults only the literal table. This refutes the claim that every
subsequent registration of an already bound token fails with
AlreadyDefined. -/
theorem c2_literal_over_operator_succeeds :
    (defaultCalc Unit).is_function_defined '+' = true ∧
    isOk (define_literal (defaultCalc Unit) '+' (pureL 7)) = true ∧
    define_literal (defaultCalc Unit) '+' (pureL 7) ≠ .error .alreadyDefined := by
  refine ⟨rfl, rfl, fun h => ?_⟩
  have h2 : isOk (define_literal (defaultCalc Unit) '+' (pureL 7)) = true := rfl
  rw [h] at h2
  exact Bool.noConfusion h2

/-- C2 amended: operator registration through define fails with
AlreadyDefined whenever the token is bound as operator or as literal, and
literal registration through define_literal fails with AlreadyDefined
exactly when the token is already bound as a literal — it succeeds whenever
the literal flag is clear, even when the token is bound as an operator. A
failing registration returns only the error, so the existing binding is
unchanged. -/
theorem c2_registration_rules {σ : Type} :
    (∀ (m : Machine σ) (c : Char) (fn : Lazy σ → Lazy σ → σ → Int × σ),
      m.is_function_defined c = true ∨ m.is_literal_defined c = true →
      define m c fn = .error .alreadyDefined) ∧
    (∀ (m : Machine σ) (c : Char) (fn : Lazy σ),
      m.is_literal_defined c = true →
      define_literal m c fn = .error .alreadyDefined) ∧
    (∀ (m : Machine σ) (c : Char) (fn : Lazy σ),
      m.is_literal_defined c = false →
      isOk (define_literal m c fn) = true) := by
  refine ⟨fun m c fn h => ?_, fun m c fn h => ?_, fun m c fn h => ?_⟩
  · rcases h with h | h <;> simp [define, h]
  · simp [define_literal, h]
  · simp [define_literal, h, isOk]

/-- Witness for the amended C2 at concrete inputs. -/
theorem c2_registration_rules_witness :
    define (defaultCalc Unit) '+' addC = .error .alreadyDefined ∧
    define_literal (defaultCalc Unit) '0' (pureL 5) = .error .alreadyDefined ∧
    isOk (define_literal (defaultCalc Unit) 'x' (pureL 5)) = true :=
  ⟨c2_registration_rules.1 (defaultCalc Unit) '+' addC (Or.inl rfl),
   c2_registration_rules.2.1 (defaultCalc Unit) '0' (pureL 5) rfl,
   c2_registration_rules.2.2 (defaultCalc Unit) 'x' (pureL 5) rfl⟩

/-- C3 counterexample: the evaluation stack is a mutable member (42.cc line
32) that a failed call leaves populated. On a fresh calculator, calculate
on the text + reaches the undefined pop of an empty stack; after a failed
calculate on 42 (SyntaxError with two thunks left behind), calculate on the
same text + succeeds and returns 6. The outcome of an evaluation therefore
depends on earlier failed calls, refuting the claim. -/
theorem c3_failed_call_leaks_stack :
    (calculate (defaultCalc Unit) (['+']) ([], ())).1 = .error .undefinedBehavior ∧
    (calculate (defaultCalc Unit) (['4', '2']) ([], ())).1 = .error .syntaxError ∧
    (calculate (defaultCalc Unit) (['+'])
        ((calculate (defaultCalc Unit) (['4', '2']) ([], ())).2)).1 = .ok 6 :=
  ⟨rfl, rfl, rfl⟩

/-- C3 amended: the stack is a member persisting across calls, so a call
begins with whatever an earlier call left; what holds is that a successful
parse always leaves the member stack empty — the terminal check admits
exactly one element and pops it — so evaluations are unaffected by earlier
successful calls, while a failed call leaves its partial stack in place and
can change the outcome of later calls. -/
theorem c3_success_resets_stack {σ : Type} (m : Machine σ) (s : List Char)
    (st : List (Lazy σ) × σ) (a : Lazy σ) (st2 : List (Lazy σ) × σ)
    (h : parse m s st = (.ok a, st2)) : st2.1 = [] := by
  unfold parse at h
  rcases hr : runTokens m s st with ⟨r, stack, w⟩
  rw [hr] at h
  cases r with
  | error e => simp at h
  | ok u =>
    match stack with
    | [] => simp at h
    | [x] =>
      simp only [Prod.mk.injEq, Except.ok.injEq] at h
      rw [← h.2]
    | x :: y :: t => simp at h

/-- Witness for the amended C3: the successful parse of the single literal 4
leaves the member stack empty. -/
theorem c3_success_resets_stack_witness :
    (([], ()) : List (Lazy Unit) × Unit).1 = [] :=
  c3_success_resets_stack (defaultCalc Unit) (['4']) ([], ())
    ((defaultCalc Unit).literals '4') ([], ()) rfl

/-- Helper: running the tick producer k times advances the counter world by
exactly k. -/
theorem invokeN_tick_count : ∀ k n : Nat, (invokeN k tick n).2 = n + k := by
  intro k
  induction k with
  | zero => intro n; rfl
  | succ k ih =>
    intro n
    show (invokeN k tick (n + 1)).2 = n + (k + 1)
    rw [ih (n + 1)]
    omega

/-- C4: the thunk pushed for an operator token applies the registered
combinator to the two popped operand thunks, captured unevaluated, and
invocation is not memoized: over a counter world whose tick operand bumps
the counter on every run, a combinator that skips its first operand and
invokes its second exactly k times changes the counter by exactly k — in
particular by zero for the skipped operand and when k is zero. -/
theorem c4_operands_lazy_not_memoized :
    (∀ (σ : Type) (m : Machine σ) (c : Char) (a b : Lazy σ)
        (rest : List (Lazy σ)) (w : σ),
      m.is_literal_defined c = false → m.is_function_defined c = true →
      doOperation m c (b :: a :: rest, w) =
        .ok ((fun w2 => m.functions c a b w2) :: rest, w)) ∧
    (∀ k n : Nat,
      (calculate (countCalc k) (['t', 't', 'K']) ([], n)).2.2 = n + k) := by
  refine ⟨fun σ m c a b rest w hl hf => doOperation_op m c a b rest w hl hf,
    fun k n => ?_⟩
  have hred : calculate (countCalc k) (['t', 't', 'K']) ([], n) =
      (.ok (invokeN k tick n).1, ([], (invokeN k tick n).2)) := rfl
  rw [hred]
  exact invokeN_tick_count k n

/-- Witness for C4: pushing through the + operator of the fresh calculator,
and the counter moving by two for a double invocation and by zero for a
skipped one. -/
theorem c4_operands_lazy_not_memoized_witness :
    doOperation (defaultCalc Unit) '+' ([pureL 2, pureL 1], ()) =
      .ok ([fun w2 => (defaultCalc Unit).functions '+' (pureL 1) (pureL 2) w2], ()) ∧
    (calculate (countCalc 2) (['t', 't', 'K']) ([], 0)).2.2 = 0 + 2 ∧
    (calculate (countCalc 0) (['t', 't', 'K']) ([], 5)).2.2 = 5 + 0 :=
  ⟨c4_operands_lazy_not_memoized.1 Unit (defaultCalc Unit) '+' (pureL 1) (pureL 2)
      [] () rfl rfl,
   c4_operands_lazy_not_memoized.2 2 0,
   c4_operands_lazy_not_memoized.2 0 5⟩

/-- C5: parsing runs no user supplied computation — parse returns the world
component exactly as given, for every registry, text, and starting stack;
effects happen only once the returned thunk is invoked. -/
theorem c5_parse_runs_no_user_code {σ : Type} (m : Machine σ) (s : List Char)
    (st : List (Lazy σ) × σ) : (parse m s st).2.2 = st.2 := by
  have hw := runTokens_world m s st
  unfold parse
  rcases hr : runTokens m s st with ⟨r, stack, w⟩
  rw [hr] at hw
  cases r with
  | error e => exact hw
  | ok u =>
    cases stack with
    | nil => exact hw
    | cons a t =>
      cases t with
      | nil => exact hw
      | cons b t2 => exact hw

/-- Witness for C5 at a concrete effectful registry and world. -/
theorem c5_parse_runs_no_user_code_witness :
    (parse (countCalc 3) (['t', 't', 'K']) ([], 7)).2.2 = 7 :=
  c5_parse_runs_no_user_code (countCalc 3) (['t', 't', 'K']) ([], 7)

/-- C6: the built-in literals and operators of the fresh calculator give the
documented postfix results, and on an operator token the most recently
pushed thunk is popped as the second operand b, the one beneath it as the
first operand a, and the pushed thunk computes the combinator applied to
a and b. -/
theorem c6_builtin_arithmetic :
    (calculate (defaultCalc Unit) (['4', '2', '+']) ([], ())).1 = .ok 6 ∧
    (calculate (defaultCalc Unit) (['2', '4', '-']) ([], ())).1 = .ok (-2) ∧
    (calculate (defaultCalc Unit) (['4', '2', '*']) ([], ())).1 = .ok 8 ∧
    (calculate (defaultCalc Unit) (['4', '2', '/']) ([], ())).1 = .ok 2 ∧
    (calculate (defaultCalc Unit) (['4', '2', '-', '2', '-']) ([], ())).1 = .ok 0 ∧
    (calculate (defaultCalc Unit) (['2', '4', '2', '-', '-']) ([], ())).1 = .ok 0 ∧
    (calculate (defaultCalc Unit)
        (['2', '2', '+', '2', '-', '2', '*', '2', '/', '0', '-']) ([], ())).1 = .ok 2 ∧
    (∀ (σ : Type) (m : Machine σ) (c : Char) (a b : Lazy σ)
        (rest : List (Lazy σ)) (w : σ),
      m.is_literal_defined c = false → m.is_function_defined c = true →
      doOperation m c (b :: a :: rest, w) =
        .ok ((fun w2 => m.functions c a b w2) :: rest, w)) :=
  ⟨rfl, rfl, rfl, rfl, rfl, rfl, rfl,
   fun σ m c a b rest w hl hf => doOperation_op m c a b rest w hl hf⟩

/-- Witness for the operand-order part of C6 at the subtraction operator. -/
theorem c6_builtin_arithmetic_witness :
    doOperation (defaultCalc Unit) '-' ([pureL 9, pureL 7], ()) =
      .ok ([fun w2 => (defaultCalc Unit).functions '-' (pureL 7) (pureL 9) w2], ()) :=
  c6_builtin_arithmetic.2.2.2.2.2.2.2 Unit (defaultCalc Unit) '-' (pureL 7)
    (pureL 9) [] () rfl rfl

/-- C7: once the token loop finishes without an exception, parse throws
SyntaxError whenever the stack does not hold exactly one element, leaving
the stack as is, and otherwise pops and returns the single thunk
unevaluated; in particular the empty text, the text 42, and the text 424+
fail with SyntaxError on a fresh calculator. -/
theorem c7_terminal_check :
    (∀ (σ : Type) (m : Machine σ) (s : List Char) (st stf : List (Lazy σ) × σ),
      runTokens m s st = (.ok (), stf) → stf.1.length ≠ 1 →
      parse m s st = (.error .syntaxError, stf)) ∧
    (∀ (σ : Type) (m : Machine σ) (s : List Char) (st : List (Lazy σ) × σ)
        (a : Lazy σ) (w : σ),
      runTokens m s st = (.ok (), ([a], w)) →
      parse m s st = (.ok a, ([], w))) ∧
    (parse (defaultCalc Unit) ([] : List Char) ([], ())).1 = .error .syntaxError ∧
    (parse (defaultCalc Unit) (['4', '2']) ([], ())).1 = .error .syntaxError ∧
    (parse (defaultCalc Unit) (['4', '2', '4', '+']) ([], ())).1 = .error .syntaxError := by
  refine ⟨?_, ?_, rfl, rfl, rfl⟩
  · intro σ m s st stf h hlen
    unfold parse
    rw [h]
    rcases stf with ⟨stack, w⟩
    cases stack with
    | nil => rfl
    | cons a t =>
      cases t with
      | nil => exact absurd rfl hlen
      | cons b t2 => rfl
  · intro σ m s st a w h
    unfold parse
    rw [h]

/-- Witness for C7: a two-element final stack throws SyntaxError and keeps
the stack; a one-element final stack returns the thunk and empties it. -/
theorem c7_terminal_check_witness :
    parse (defaultCalc Unit) (['4', '2']) ([], ()) =
      (.error .syntaxError,
        ([(defaultCalc Unit).literals '2', (defaultCalc Unit).literals '4'], ())) ∧
    parse (defaultCalc Unit) (['4']) ([], ()) =
      (.ok ((defaultCalc Unit).literals '4'), ([], ())) :=
  ⟨c7_terminal_check.1 Unit (defaultCalc Unit) (['4', '2']) ([], ())
      ([(defaultCalc Unit).literals '2', (defaultCalc Unit).literals '4'], ())
      rfl (by decide),
   c7_terminal_check.2.1 Unit (defaultCalc Unit) (['4']) ([], ())
      ((defaultCalc Unit).literals '4') () rfl⟩

/-- C8: calculate is exactly evaluate followed by invoking the returned
thunk at the world evaluation reached — the translated calculate agrees
with the composition written from the words of the spec on every registry,
text, starting stack, and world: same integer, same error, same final
stack and world, hence exactly the same side effects. -/
theorem c8_calculate_is_evaluate_then_invoke {σ : Type} (m : Machine σ)
    (s : List Char) (st : List (Lazy σ) × σ) :
    calculate m s st = spec_evaluate_then_invoke m s st := by
  unfold calculate spec_evaluate_then_invoke
  rcases hp : parse m s st with ⟨res, stack, w⟩
  cases res with
  | ok a => rfl
  | error e => rfl

/-- Witness for C8 at a concrete accepted text. -/
theorem c8_calculate_is_evaluate_then_invoke_witness :
    calculate (defaultCalc Unit) (['4', '2', '+']) ([], ()) =
      spec_evaluate_then_invoke (defaultCalc Unit) (['4', '2', '+']) ([], ()) :=
  c8_calculate_is_evaluate_then_invoke (defaultCalc Unit) (['4', '2', '+']) ([], ())

/-- C9: a token bound neither as a literal nor as an operator makes
doOperation throw UnknownOperator whatever the stack holds, and the whole
evaluation aborts at that token: however the text continues, parse returns
UnknownOperator with the state frozen at the throw point. -/
theorem c9_unknown_token_aborts :
    (∀ (σ : Type) (m : Machine σ) (c : Char) (st : List (Lazy σ) × σ),
      m.is_literal_defined c = false → m.is_function_defined c = false →
      doOperation m c st = .error .unknownOperator) ∧
    (∀ (σ : Type) (m : Machine σ) (s1 : List Char) (c : Char) (s2 : List Char)
        (st stf : List (Lazy σ) × σ),
      runTokens m s1 st = (.ok (), stf) →
      m.is_literal_defined c = false → m.is_function_defined c = false →
      parse m (s1 ++ c :: s2) st = (.error .unknownOperator, stf)) := by
  have hdo : ∀ (σ : Type) (m : Machine σ) (c : Char) (st : List (Lazy σ) × σ),
      m.is_literal_defined c = false → m.is_function_defined c = false →
      doOperation m c st = .error .unknownOperator := by
    intro σ m c st hl hf
    simp [doOperation, hl, hf]
  refine ⟨hdo, fun σ m s1 c s2 st stf h hl hf => ?_⟩
  unfold parse
  rw [runTokens_append_ok m s1 (c :: s2) st stf h, runTokens_cons,
      hdo σ m c stf hl hf]

/-- Witness for C9: the text 02& on the fresh calculator aborts at the
unbound token with two thunks on the stack. -/
theorem c9_unknown_token_aborts_witness :
    parse (defaultCalc Unit) (['0', '2', '&']) ([], ()) =
      (.error .unknownOperator,
        ([(defaultCalc Unit).literals '2', (defaultCalc Unit).literals '0'], ())) :=
  c9_unknown_token_aborts.2 Unit (defaultCalc Unit) (['0', '2']) '&' [] ([], ())
    ([(defaultCalc Unit).literals '2', (defaultCalc Unit).literals '0'], ())
    rfl rfl rfl

/-- C10: define_literal checks only the literal table, so a token bound as
an operator can also become bound as a literal; after that, both flags
hold, and since doOperation tests the literal table first, the token
always dispatches to the new literal — the operator binding is never
consulted. -/
theorem c10_literal_shadows_operator {σ : Type} (m : Machine σ) (c : Char)
    (fn : Lazy σ) (m2 : Machine σ) (st : List (Lazy σ) × σ)
    (hf : m.is_function_defined c = true) (hl : m.is_literal_defined c = false)
    (h : define_literal m c fn = .ok m2) :
    m2.is_function_defined c = true ∧ m2.is_literal_defined c = true ∧
    m2.literals c = fn ∧
    doOperation m2 c st = .ok (fn :: st.1, st.2) := by
  simp only [define_literal, hl, Bool.false_eq_true, if_false,
    Except.ok.injEq] at h
  subst h
  refine ⟨hf, by simp, by simp, ?_⟩
  simp [doOperation]

/-- Witness for C10: after + is registered as a literal producing 7 over
its operator binding, dispatch on + pushes the literal 7. -/
theorem c10_literal_shadows_operator_witness :
    plusAsLiteral.is_function_defined '+' = true ∧
    plusAsLiteral.is_literal_defined '+' = true ∧
    plusAsLiteral.literals '+' = pureL 7 ∧
    doOperation plusAsLiteral '+' ([pureL 3], ()) = .ok (pureL 7 :: [pureL 3], ()) :=
  c10_literal_shadows_operator (defaultCalc Unit) '+' (pureL 7) plusAsLiteral
    ([pureL 3], ()) rfl rfl rfl

end FunctionalCPP
